import Mathlib

/-!
Shallow embedding of the authentication and notebook-management layer of the
open-notebook repository (files src/api/auth.py, src/api/routers/notebooks.py,
src/open_notebook/domain/user.py, src/open_notebook/utils/jwt_auth.py), with
theorems checking the natural-language specification against the code.

Machine integers are modelled as Int/Nat; timestamps are seconds since the
epoch as Int. Python functions that raise are embedded as Except-valued
functions; an error result leaves every store untouched, which embeds the
fact that the Python code raises before performing the corresponding write.
-/

namespace OpenNotebook

/-- Model of the Python str.lower method on a single character, restricted to
ASCII as in the identifiers this code normalizes. -/
def lowerChar (c : Char) : Char :=
  if 65 ≤ c.toNat ∧ c.toNat ≤ 90 then Char.ofNat (c.toNat + 32) else c

/-- Model of the Python str.lower method. -/
def lowerStr (s : String) : String :=
  String.mk (s.data.map lowerChar)

/-- Model of the Python str.strip method (used by the User field validators). -/
def stripStr (s : String) : String :=
  String.mk ((s.data.dropWhile Char.isWhitespace).reverse.dropWhile Char.isWhitespace |>.reverse)

/-- Python truthiness of an optional string: None and the empty string are
falsy, every other string is truthy. -/
def pyTruthy : Option String → Bool
  | none => false
  | some s => !s.isEmpty

/-- Value of a run of decimal digits, none when the list is empty or holds a
non-digit. -/
def natOfDigits (ds : List Char) : Option Nat :=
  if ds.isEmpty then none
  else if ds.all Char.isDigit then
    some (ds.foldl (fun acc c => acc * 10 + (c.toNat - 48)) 0)
  else none

/-- Model of the Python int constructor applied to a decimal string, as used
for the JWT_EXPIRATION_HOURS environment variable: an optional sign followed
by digits, none (a raised ValueError) otherwise. -/
def pyInt (s : String) : Option Int :=
  match s.data with
  | '-' :: ds => (natOfDigits ds).map fun n => -(n : Int)
  | ds => (natOfDigits ds).map fun n => (n : Int)

/-! ## Model of the python-jose JWT library (HS256)

Tokens are modelled as an abstract credential space: a well-formed signed
token carries its payload and the key it was signed with, and every other
string a client could present is a raw credential. Decoding with the right
key recovers the payload of a signed token and checks its expiry, exactly
the contract of jose.jwt.encode / jose.jwt.decode used by jwt_auth.py. -/

/-- Payload of a JWT issued by this application: claims sub, username, exp,
iat (exp and iat as epoch seconds). -/
structure JwtPayload where
  sub : String
  username : String
  exp : Int
  iat : Int
deriving DecidableEq, Repr

/-- Credential space: a string presented as a bearer credential either parses
as a JWT signed with some key, or is an arbitrary raw string. -/
inductive Token where
  | signed (payload : JwtPayload) (key : String)
  | raw (s : String)
deriving DecidableEq, Repr

/-- Errors raised by jose.jwt.decode, all subclasses of JWTError. -/
inductive JwtErr where
  | malformed
  | badSignature
  | expired
deriving DecidableEq, Repr

/-- Model of jose.jwt.encode with algorithm HS256. -/
def joseEncode (payload : JwtPayload) (key : String) : Token :=
  Token.signed payload key

/-- Model of jose.jwt.decode with algorithm HS256: raises (returns an error)
on malformed tokens, wrong signature, or an expired exp claim; otherwise
returns the payload. Expiry is checked against the current time now. -/
def joseDecode (tok : Token) (key : String) (now : Int) : Except JwtErr JwtPayload :=
  match tok with
  | Token.raw _ => Except.error JwtErr.malformed
  | Token.signed p k =>
    if k ≠ key then Except.error JwtErr.badSignature
    else if p.exp ≤ now then Except.error JwtErr.expired
    else Except.ok p

/-! ## src/open_notebook/utils/jwt_auth.py -/

/-- Embedding of the module-level constant JWT_EXPIRATION_HOURS in
jwt_auth.py: int(os.environ.get("JWT_EXPIRATION_HOURS", "168")). The
environment variable is passed as an Option String; the Python int call can
raise, hence the Option Int result. -/
def JWT_EXPIRATION_HOURS (env : Option String) : Option Int :=
  pyInt (env.getD "168")

/-- Embedding of create_access_token. The module constants JWT_SECRET_KEY and
JWT_EXPIRATION_HOURS are passed as the key and hours arguments; now is the
value of datetime.utcnow() at issuance (epoch seconds). -/
def create_access_token (key : String) (hours : Int) (now : Int)
    (user_id username : String) : Token :=
  joseEncode
    { sub := user_id
      username := username
      exp := now + hours * 3600
      iat := now }
    key

/-- Embedding of verify_token: decodes, returning none on any JWTError or
other exception instead of raising. -/
def verify_token (key : String) (now : Int) (tok : Token) : Option JwtPayload :=
  match joseDecode tok key now with
  | Except.ok p => some p
  | Except.error _ => none

/-- Embedding of get_user_id_from_token: the sub claim of a valid token,
otherwise none. -/
def get_user_id_from_token (key : String) (now : Int) (tok : Token) : Option String :=
  (verify_token key now tok).map JwtPayload.sub

/-- Embedding of get_username_from_token. -/
def get_username_from_token (key : String) (now : Int) (tok : Token) : Option String :=
  (verify_token key now tok).map JwtPayload.username

/-! ## Model of the bcrypt library

Real bcrypt hashes have the form dollar-2b-dollar-cost-dollar followed by a
22-character salt and then the digest. The one-way digest is idealized as
collision-free: the model digest of a password is the password itself, kept
after a fixed 29-character prefix, so that hashpw is injective in the
password for a fixed salt and checkpw recomputes and compares, as the
library does. Salts produced by bcrypt.gensalt always have 22 characters,
which theorems carry as a hypothesis on the salt argument. -/

/-- Length of the prefix of a modelled bcrypt hash: the 7 characters of the
version-and-cost header plus the 22 salt characters. -/
def bcryptPrefix (salt : String) : List Char :=
  "$2b$12$".data ++ salt.data

/-- Model of bcrypt.hashpw: header, salt, then the idealized digest of the
password. -/
def bcryptHashpw (password salt : String) : String :=
  String.mk (bcryptPrefix salt ++ password.data)

/-- Model of bcrypt.checkpw: parse the stored hash (header plus 22-character
salt occupy the first 29 characters), recompute the digest of the candidate
password and compare. A stored value too short to be a bcrypt hash makes the
real library raise; the embedding returns false, matching the try/except in
verify_password, and the User.verify_password theorems only depend on hashes
produced by bcryptHashpw. -/
def bcryptCheckpw (password hash : String) : Bool :=
  decide (29 ≤ hash.data.length) && decide (hash.data.drop 29 = password.data)

/-! ## src/open_notebook/domain/user.py -/

/-- Embedding of the InvalidInputError messages raised by the User model;
only the fact that an InvalidInputError is raised matters to the claims, so
errors are plain strings. -/
abbrev UserErr := String

/-- Embedding of the User pydantic model. The database record id is the id
field; created/updated timestamps are omitted as no claim mentions them. -/
structure User where
  id : String
  username : String
  email : String
  password_hash : String
  full_name : Option String := none
  is_active : Bool := true
  is_admin : Bool := false
  last_login : Option Int := none
deriving DecidableEq, Repr

/-- Model of the Python str.isalnum test restricted as in the validator. -/
def pyIsAlnum (c : Char) : Bool :=
  c.isAlpha || c.isDigit

/-- Embedding of the field validator username_must_be_valid: rejects empty or
whitespace-only usernames, usernames shorter than 3 or longer than 50
characters, and characters other than letters, digits, underscore and
hyphen; returns the stripped lowercased username. -/
def username_must_be_valid (v : String) : Except UserErr String :=
  if v.isEmpty || (stripStr v).isEmpty then Except.error "Username cannot be empty"
  else if v.length < 3 then Except.error "Username must be at least 3 characters"
  else if 50 < v.length then Except.error "Username must be at most 50 characters"
  else if !(v.data.all fun c => pyIsAlnum c || c = '_' || c = '-') then
    Except.error "Username can only contain letters, numbers, underscore, and hyphen"
  else Except.ok (lowerStr (stripStr v))

/-- Embedding of the field validator email_must_be_valid: rejects empty or
whitespace-only emails and returns the stripped lowercased email. -/
def email_must_be_valid (v : String) : Except UserErr String :=
  if v.isEmpty || (stripStr v).isEmpty then Except.error "Email cannot be empty"
  else Except.ok (lowerStr (stripStr v))

/-- Model of the pydantic EmailStr type validation that cls(...) runs on the
email field before the custom validator (the email field is declared
EmailStr in user.py; the validation itself lives in the third-party
email-validator library, so its RFC syntax check is modelled): the address
must be a single local-at-domain pair with a nonempty local part and a
nonempty domain that contains an interior period, with no whitespace
anywhere. This is a disclosed simplification of the full RFC grammar the
library enforces. -/
def emailStrValid (v : String) : Bool :=
  match v.data.splitOn '@' with
  | [localPart, domain] =>
    !localPart.isEmpty && !domain.isEmpty &&
    domain.contains '.' &&
    domain.head? ≠ some '.' && domain.getLast? ≠ some '.' &&
    v.data.all fun c => !c.isWhitespace
  | _ => false

/-- Construction of a User instance runs the pydantic validation as cls(...)
does in Python, field by field in declaration order: the custom username
validator, then the EmailStr type validation of the email field, then the
custom email validator. Any failure raises (InvalidInputError from the
custom validators, ValidationError from the EmailStr check); only the fact
that construction fails matters to the claims, so both are error strings. -/
def User.construct (id username email password_hash : String)
    (full_name : Option String) (is_active is_admin : Bool) : Except UserErr User := do
  let uname ← username_must_be_valid username
  if !emailStrValid email then Except.error "value is not a valid email address"
  else do
    let mail ← email_must_be_valid email
    Except.ok
      { id := id
        username := uname
        email := mail
        password_hash := password_hash
        full_name := full_name
        is_active := is_active
        is_admin := is_admin }

/-- The user table of the graph database, modelled as the list of stored
user records in insertion order. -/
abbrev UserDb := List User

/-- Embedding of User.get_by_username: the query
SELECT * FROM user WHERE username = dollar-username LIMIT 1 with the binding
username.lower(), modelled as the first stored record whose username field
equals the lowercased argument. -/
def get_by_username (db : UserDb) (username : String) : Option User :=
  db.find? fun u => u.username = lowerStr username

/-- Embedding of User.get_by_email, analogous to get_by_username. -/
def get_by_email (db : UserDb) (email : String) : Option User :=
  db.find? fun u => u.email = lowerStr email

/-- Embedding of the static method User.hash_password: rejects empty
passwords and passwords under 6 characters, otherwise returns the bcrypt
hash with a fresh salt (the salt drawn by bcrypt.gensalt is an argument). -/
def hash_password (salt : String) (password : String) : Except UserErr String :=
  if password.isEmpty || password.length < 6 then
    Except.error "Password must be at least 6 characters"
  else Except.ok (bcryptHashpw password salt)

/-- Embedding of User.verify_password: bcrypt.checkpw of the candidate
password against the stored hash, with any exception turned into false. -/
def User.verify_password (u : User) (password : String) : Bool :=
  bcryptCheckpw password u.password_hash

/-- Embedding of the classmethod User.create_user: reject an existing
username, then an existing email, then hash the password (which rejects
passwords under 6 characters), construct the User (running the field
validators) and save it. newId is the record id assigned by the database on
save; salt is the salt drawn by bcrypt.gensalt. An error result models a
raised InvalidInputError, before which nothing was saved, so the returned
store is only extended in the success case. -/
def create_user (db : UserDb) (salt newId : String)
    (username email password : String) (full_name : Option String)
    (is_admin : Bool) : Except UserErr (User × UserDb) := do
  if (get_by_username db username).isSome then
    Except.error "Username already exists"
  else if (get_by_email db email).isSome then
    Except.error "Email already exists"
  else do
    let pwHash ← hash_password salt password
    let user ← User.construct newId (lowerStr username) (lowerStr email) pwHash
      full_name true is_admin
    Except.ok (user, db ++ [user])

/-! ## src/api/auth.py, PasswordAuthMiddleware -/

/-- Value of an Authorization header after the split on the first space
performed by dispatch: a header containing a space splits into a scheme and
a credential; a header with no space makes the tuple unpacking raise
ValueError. The credential lives in the Token credential space. -/
inductive AuthHeaderVal where
  | schemeCred (scheme : String) (cred : Token)
  | noSpace (s : String)
deriving DecidableEq, Repr

/-- The parts of a request that dispatch inspects. -/
structure ApiRequest where
  path : String
  method : String
  authorization : Option AuthHeaderVal
deriving DecidableEq, Repr

/-- Result of dispatch: either the request proceeds to call_next with the
given user context stored in request state (none both for excluded paths and
for the shared-password path), or a 401 JSONResponse with the given detail
is returned. -/
inductive DispatchResult where
  | proceed (user : Option User)
  | reject401 (detail : String)
deriving DecidableEq, Repr

/-- Model of User.get by record id (ObjectModel.get lives in
open_notebook/domain/base.py, which is not part of the visible sources):
lookup of the stored record with that id. dispatch maps both an absent
record and a raised exception to a 401, so only the some/none distinction
matters to the middleware. -/
def userGet (db : UserDb) (id : String) : Option User :=
  db.find? fun u => u.id = id

/-- Outcome of the JWT branch of dispatch lines 60 to 84: either an active
user was resolved, or a 401 is returned at once (token decoded but the user
is missing or inactive), or control falls through to the password check
(no usable decoded user id). -/
inductive JwtOutcome where
  | okUser (u : User)
  | denied (detail : String)
  | fallthrough
deriving DecidableEq, Repr

/-- The JWT branch of dispatch: get_user_id_from_token, Python truthiness of
the resulting user id, then User.get and the is_active check. -/
def jwtStep (db : UserDb) (key : String) (now : Int) (cred : Token) : JwtOutcome :=
  match get_user_id_from_token key now cred with
  | none => JwtOutcome.fallthrough
  | some uid =>
    if uid.isEmpty then JwtOutcome.fallthrough
    else
      match userGet db uid with
      | some u =>
        if u.is_active then JwtOutcome.okUser u
        else JwtOutcome.denied "User account is inactive"
      | none => JwtOutcome.denied "User account is inactive"

/-- Python truthiness of the configured password: unset (None) and the empty
string are falsy. -/
def tokenTruthy : Option Token → Bool
  | none => false
  | some (Token.raw s) => !s.isEmpty
  | some (Token.signed _ _) => true

/-- Embedding of PasswordAuthMiddleware.dispatch. password is the
OPEN_NOTEBOOK_PASSWORD environment variable read in the constructor, as a
member of the credential space (it is compared for string equality with the
presented credential); excluded is self.excluded_paths; db, key and now
supply the user store, JWT secret and current time. -/
def dispatch (password : Option Token) (excluded : List String) (db : UserDb)
    (key : String) (now : Int) (req : ApiRequest) : DispatchResult :=
  if req.path ∈ excluded then DispatchResult.proceed none
  else if req.method = "OPTIONS" then DispatchResult.proceed none
  else
    match req.authorization with
    | none =>
      if !tokenTruthy password then DispatchResult.proceed none
      else DispatchResult.reject401 "Missing authorization header"
    | some (AuthHeaderVal.noSpace _) =>
      DispatchResult.reject401 "Invalid authorization header format"
    | some (AuthHeaderVal.schemeCred scheme cred) =>
      if lowerStr scheme ≠ "bearer" then
        DispatchResult.reject401 "Invalid authorization header format"
      else
        match jwtStep db key now cred with
        | JwtOutcome.okUser u => DispatchResult.proceed (some u)
        | JwtOutcome.denied d => DispatchResult.reject401 d
        | JwtOutcome.fallthrough =>
          if tokenTruthy password && password = some cred then
            DispatchResult.proceed none
          else DispatchResult.reject401 "Invalid credentials"

/-! ## src/api/routers/notebooks.py -/

/-- Modelled from the spec: the Notebook domain record
(open_notebook/domain/notebook.py is not among the visible sources; the spec
describes it as name, description, archived flag, optional owning user,
timestamps, with the source and note counts derived by edge traversal).
Timestamps are omitted as no claim mentions them. -/
structure Notebook where
  id : String
  name : String
  description : String
  archived : Bool := false
  user : Option String := none
deriving DecidableEq, Repr

/-- Modelled from the spec: the Source domain record
(open_notebook/domain/notebook.py is not among the visible sources); the
router reads only its id and owning user. -/
structure Source where
  id : String
  user : Option String := none
deriving DecidableEq, Repr

/-- A reference graph edge as created by
RELATE dollar-source_id-to-reference-to-dollar-notebook_id: in SurrealDB the
record it points from is stored in the in field and the record it points to
in the out field, so the edge carries in = source id, out = notebook id.
This orientation is the one the delete handler and the
count of in-edges source_count queries in this same router use. -/
structure RefEdge where
  inRec : String
  outRec : String
deriving DecidableEq, Repr

/-- The graph database state the notebook router touches. -/
structure Store where
  notebooks : List Notebook
  sources : List Source
  references : List RefEdge
deriving DecidableEq, Repr

/-- Modelled from the spec: Notebook.get (ObjectModel.get in
open_notebook/domain/base.py, not among the visible sources) fetches the
stored record by id. -/
def notebookGet (st : Store) (id : String) : Option Notebook :=
  st.notebooks.find? fun nb => nb.id = id

/-- Modelled from the spec: Source.get fetches the stored record by id. -/
def sourceGet (st : Store) (id : String) : Option Source :=
  st.sources.find? fun s => s.id = id

/-- The ownership check appearing in every notebook handler:
user_id is truthy, the record user field converted to a string is truthy,
and the two differ. Returns true when access is denied with 403. -/
def ownerDenied (user_id : Option String) (owner : Option String) : Bool :=
  pyTruthy user_id && pyTruthy owner && owner ≠ user_id

/-- The fields of the update payload NotebookUpdate; a none field is not
provided and leaves the record field unchanged. -/
structure NotebookUpdate where
  name : Option String := none
  description : Option String := none
  archived : Option Bool := none
deriving DecidableEq, Repr

/-- Replace the stored notebook with the given id (the save of a fetched and
mutated record). -/
def saveNotebook (st : Store) (nb : Notebook) : Store :=
  { st with notebooks := st.notebooks.map fun x => if x.id = nb.id then nb else x }

/-- Embedding of the handler get_notebook (the read endpoint): fetch, 404 if
absent, 403 on ownership mismatch in multiuser mode, otherwise return the
record. Errors are the HTTP status codes raised. -/
def get_notebook (st : Store) (user_id : Option String) (notebook_id : String) :
    Except Nat Notebook :=
  match notebookGet st notebook_id with
  | none => Except.error 404
  | some nb =>
    if ownerDenied user_id nb.user then Except.error 403
    else Except.ok nb

/-- Embedding of the handler update_notebook: fetch, 404 if absent, 403 on
ownership mismatch in multiuser mode, otherwise update the provided fields
and save. The store is returned unchanged on error, embedding that the
handler raises before saving. -/
def update_notebook (st : Store) (user_id : Option String) (notebook_id : String)
    (upd : NotebookUpdate) : Except Nat Notebook × Store :=
  match notebookGet st notebook_id with
  | none => (Except.error 404, st)
  | some nb =>
    if ownerDenied user_id nb.user then (Except.error 403, st)
    else
      let nb2 : Notebook :=
        { nb with
          name := upd.name.getD nb.name
          description := upd.description.getD nb.description
          archived := upd.archived.getD nb.archived }
      (Except.ok nb2, saveNotebook st nb2)

/-- Embedding of the handler delete_notebook: fetch, 404 if absent, 403 on
ownership mismatch in multiuser mode, otherwise delete the record. -/
def delete_notebook (st : Store) (user_id : Option String) (notebook_id : String) :
    Except Nat String × Store :=
  match notebookGet st notebook_id with
  | none => (Except.error 404, st)
  | some nb =>
    if ownerDenied user_id nb.user then (Except.error 403, st)
    else
      (Except.ok "Notebook deleted successfully",
       { st with notebooks := st.notebooks.filter fun x => x.id ≠ notebook_id })

/-- The existence check of add_source_to_notebook, exactly as the source
writes it: SELECT * FROM reference WHERE out = dollar-source_id AND
in = dollar-notebook_id. -/
def referenceExistsCheck (st : Store) (notebook_id source_id : String) : List RefEdge :=
  st.references.filter fun r => r.outRec = source_id && r.inRec = notebook_id

/-- Embedding of the handler add_source_to_notebook: 404 for a missing
notebook or source, 403 on an ownership mismatch for either record in
multiuser mode; then the existence check above, and if it returns nothing,
RELATE dollar-source_id-to-reference-to-dollar-notebook_id, which appends
the edge with in = source id, out = notebook id. -/
def add_source_to_notebook (st : Store) (user_id : Option String)
    (notebook_id source_id : String) : Except Nat String × Store :=
  match notebookGet st notebook_id with
  | none => (Except.error 404, st)
  | some nb =>
    if ownerDenied user_id nb.user then (Except.error 403, st)
    else
      match sourceGet st source_id with
      | none => (Except.error 404, st)
      | some s =>
        if ownerDenied user_id s.user then (Except.error 403, st)
        else
          let existing := referenceExistsCheck st notebook_id source_id
          if existing.isEmpty then
            (Except.ok "Source linked to notebook successfully",
             { st with references :=
                st.references ++ [{ inRec := source_id, outRec := notebook_id }] })
          else
            (Except.ok "Source linked to notebook successfully", st)

/-- Embedding of the handler remove_source_from_notebook: 404 for a missing
notebook, 403 on ownership mismatch in multiuser mode, then
DELETE FROM reference WHERE out = dollar-notebook_id AND
in = dollar-source_id. -/
def remove_source_from_notebook (st : Store) (user_id : Option String)
    (notebook_id source_id : String) : Except Nat String × Store :=
  match notebookGet st notebook_id with
  | none => (Except.error 404, st)
  | some nb =>
    if ownerDenied user_id nb.user then (Except.error 403, st)
    else
      (Except.ok "Source removed from notebook successfully",
       { st with references :=
          st.references.filter fun r => !(r.outRec = notebook_id && r.inRec = source_id) })

/-! ## Query texts submitted to the database driver

These definitions record, for each repo_query call in the notebook router,
the pair of the query text and the list of parameter bindings submitted to
the driver, with the multi-line whitespace of the Python source normalized
to single spaces (normalization preserves equality and difference of texts,
which is all the claims about query texts state). -/

/-- Query text and bindings of the list endpoint get_notebooks: the order_by
request parameter is interpolated into the f-string, while the user id
travels as a binding. -/
def get_notebooks_query (user_id : Option String) (order_by : String) :
    String × List (String × String) :=
  if pyTruthy user_id then
    ("SELECT *, count(<-reference.in) as source_count, count(<-artifact.in) as note_count FROM notebook WHERE user = $user_id ORDER BY "
      ++ order_by,
     [("user_id", user_id.getD "")])
  else
    ("SELECT *, count(<-reference.in) as source_count, count(<-artifact.in) as note_count FROM notebook ORDER BY "
      ++ order_by,
     [])

/-- Query text and bindings of the single-notebook read (also issued by
update_notebook after saving): the path id travels only as a binding. -/
def get_notebook_query (notebook_id : String) : String × List (String × String) :=
  ("SELECT *, count(<-reference.in) as source_count, count(<-artifact.in) as note_count FROM $notebook_id",
   [("notebook_id", notebook_id)])

/-- Query text and bindings of the reference existence check in
add_source_to_notebook. -/
def reference_exists_query (notebook_id source_id : String) :
    String × List (String × String) :=
  ("SELECT * FROM reference WHERE out = $source_id AND in = $notebook_id",
   [("notebook_id", notebook_id), ("source_id", source_id)])

/-- Query text and bindings of the RELATE statement in
add_source_to_notebook. -/
def relate_query (notebook_id source_id : String) : String × List (String × String) :=
  ("RELATE $source_id->reference->$notebook_id",
   [("notebook_id", notebook_id), ("source_id", source_id)])

/-- Query text and bindings of the DELETE statement in
remove_source_from_notebook. -/
def delete_reference_query (notebook_id source_id : String) :
    String × List (String × String) :=
  ("DELETE FROM reference WHERE out = $notebook_id AND in = $source_id",
   [("notebook_id", notebook_id), ("source_id", source_id)])

/-! ## Helper lemmas -/

/-- Packing a valid codepoint into a Char and back is the identity. -/
theorem char_toNat_ofNat (n : Nat) (h : n.isValidChar) : (Char.ofNat n).toNat = n := by
  unfold Char.ofNat
  rw [dif_pos h]
  rfl

/-- Lowercasing a character twice is the same as lowercasing it once. -/
theorem lowerChar_idem (c : Char) : lowerChar (lowerChar c) = lowerChar c := by
  unfold lowerChar
  by_cases h : 65 ≤ c.toNat ∧ c.toNat ≤ 90
  · rw [if_pos h]
    have hv : (c.toNat + 32).isValidChar := by
      left
      omega
    have ht : (Char.ofNat (c.toNat + 32)).toNat = c.toNat + 32 := char_toNat_ofNat _ hv
    rw [if_neg]
    rw [ht]
    omega
  · rw [if_neg h, if_neg h]

/-- Lowercasing a string twice is the same as lowercasing it once. -/
theorem lowerStr_idem (s : String) : lowerStr (lowerStr s) = lowerStr s := by
  unfold lowerStr
  apply congrArg
  show ((s.data.map lowerChar).map lowerChar) = s.data.map lowerChar
  rw [List.map_map]
  exact List.map_congr_left fun c _ => lowerChar_idem c

/-- In a store whose usernames are pairwise distinct, get_by_username finds
the member whose username the lowercased argument equals. -/
theorem get_by_username_finds (db : UserDb) (u : User) (s : String)
    (hmem : u ∈ db) (hs : lowerStr s = u.username)
    (huniq : ∀ v ∈ db, ∀ w ∈ db, v.username = w.username → v = w) :
    get_by_username db s = some u := by
  unfold get_by_username
  induction db with
  | nil => cases hmem
  | cons v t ih =>
    by_cases h : v.username = lowerStr s
    · have hvu : v = u :=
        huniq v (List.mem_cons_self v t) u hmem (h.trans hs)
      subst hvu
      exact List.find?_cons_of_pos t (by simpa using h)
    · have hut : u ∈ t := by
        cases List.mem_cons.mp hmem with
        | inl he => subst he; exact absurd hs.symm h
        | inr ht => exact ht
      rw [List.find?_cons_of_neg t (by simpa using h)]
      exact ih hut fun a ha b hb => huniq a (List.mem_cons_of_mem v ha) b (List.mem_cons_of_mem v hb)

/-- In a store whose emails are pairwise distinct, get_by_email finds the
member whose email the lowercased argument equals. -/
theorem get_by_email_finds (db : UserDb) (u : User) (s : String)
    (hmem : u ∈ db) (hs : lowerStr s = u.email)
    (huniq : ∀ v ∈ db, ∀ w ∈ db, v.email = w.email → v = w) :
    get_by_email db s = some u := by
  unfold get_by_email
  induction db with
  | nil => cases hmem
  | cons v t ih =>
    by_cases h : v.email = lowerStr s
    · have hvu : v = u :=
        huniq v (List.mem_cons_self v t) u hmem (h.trans hs)
      subst hvu
      exact List.find?_cons_of_pos t (by simpa using h)
    · have hut : u ∈ t := by
        cases List.mem_cons.mp hmem with
        | inl he => subst he; exact absurd hs.symm h
        | inr ht => exact ht
      rw [List.find?_cons_of_neg t (by simpa using h)]
      exact ih hut fun a ha b hb => huniq a (List.mem_cons_of_mem v ha) b (List.mem_cons_of_mem v hb)

/-- The data of a modelled bcrypt hash. -/
theorem bcryptHashpw_data (password salt : String) :
    (bcryptHashpw password salt).data = bcryptPrefix salt ++ password.data := rfl

/-- The prefix of a modelled bcrypt hash with a 22-character salt occupies
29 characters. -/
theorem bcryptPrefix_length (salt : String) (hsalt : salt.length = 22) :
    (bcryptPrefix salt).length = 29 := by
  have h22 : salt.data.length = 22 := hsalt
  have h7 : "$2b$12$".data.length = 7 := by decide
  unfold bcryptPrefix
  rw [List.length_append, h22, h7]

/-- With a 22-character salt, checking the password a hash was produced from
succeeds. -/
theorem bcryptCheckpw_roundtrip (password salt : String) (hsalt : salt.length = 22) :
    bcryptCheckpw password (bcryptHashpw password salt) = true := by
  have hlen : (bcryptPrefix salt).length = 29 := bcryptPrefix_length salt hsalt
  unfold bcryptCheckpw
  rw [bcryptHashpw_data, List.drop_left' hlen]
  simp [List.length_append, hlen]

/-- With a 22-character salt, checking a hash against a candidate password
recovers exactly the hashed password: the check succeeds only for it. -/
theorem bcryptCheckpw_other (password other salt : String) (hsalt : salt.length = 22)
    (hne : other ≠ password) :
    bcryptCheckpw other (bcryptHashpw password salt) = false := by
  have hlen : (bcryptPrefix salt).length = 29 := bcryptPrefix_length salt hsalt
  unfold bcryptCheckpw
  rw [bcryptHashpw_data, List.drop_left' hlen]
  simp
  intro _ hdata
  exact hne (String.ext hdata.symm)

/-- A modelled bcrypt hash is never the plaintext password: it is strictly
longer. -/
theorem bcryptHashpw_ne_password (password salt : String) :
    bcryptHashpw password salt ≠ password := by
  intro h
  have hlen : (bcryptHashpw password salt).length = password.length :=
    congrArg String.length h
  have h2 : (bcryptHashpw password salt).length
      = (bcryptPrefix salt).length + password.length := by
    show (String.mk (bcryptPrefix salt ++ password.data)).length = _
    rw [String.length_mk, List.length_append]
    rfl
  have h7 : "$2b$12$".data.length = 7 := by decide
  have hpre : (bcryptPrefix salt).length = 7 + salt.data.length := by
    unfold bcryptPrefix
    rw [List.length_append, h7]
  omega

/-- A successful run of the username validator returns the stripped
lowercased input. -/
theorem username_valid_ok (v a : String)
    (h : username_must_be_valid v = Except.ok a) : a = lowerStr (stripStr v) := by
  unfold username_must_be_valid at h
  repeat' split at h
  all_goals simp_all

/-- A successful run of the email validator returns the stripped lowercased
input. -/
theorem email_valid_ok (v a : String)
    (h : email_must_be_valid v = Except.ok a) : a = lowerStr (stripStr v) := by
  unfold email_must_be_valid at h
  repeat' split at h
  all_goals simp_all

/-- The JWT branch of dispatch resolves an active user exactly when the
token yields a truthy user id whose record exists and is active. -/
theorem jwtStep_okUser (db : UserDb) (key : String) (now : Int) (cred : Token)
    (uid : String) (u : User)
    (h1 : get_user_id_from_token key now cred = some uid) (h2 : uid ≠ "")
    (h3 : userGet db uid = some u) (h4 : u.is_active = true) :
    jwtStep db key now cred = JwtOutcome.okUser u := by
  have hie : uid.isEmpty = false := by
    rw [Bool.eq_false_iff]
    intro hh
    exact h2 ((String.isEmpty_iff uid).mp hh)
  unfold jwtStep
  rw [h1]
  simp [hie, h3, h4]

/-- The JWT branch of dispatch answers 401 when the token decodes to a
truthy user id that does not resolve to an active user. -/
theorem jwtStep_denied (db : UserDb) (key : String) (now : Int) (cred : Token)
    (uid : String)
    (h1 : get_user_id_from_token key now cred = some uid) (h2 : uid ≠ "")
    (h3 : ∀ u, userGet db uid = some u → u.is_active = false) :
    jwtStep db key now cred = JwtOutcome.denied "User account is inactive" := by
  have hie : uid.isEmpty = false := by
    rw [Bool.eq_false_iff]
    intro hh
    exact h2 ((String.isEmpty_iff uid).mp hh)
  unfold jwtStep
  rw [h1]
  cases hg : userGet db uid with
  | none => simp [hie, hg]
  | some u => simp [hie, hg, h3 u hg]

/-- The JWT branch of dispatch falls through to the password check when the
token yields no truthy user id. -/
theorem jwtStep_fallthrough (db : UserDb) (key : String) (now : Int) (cred : Token)
    (h : get_user_id_from_token key now cred = none ∨
         get_user_id_from_token key now cred = some "") :
    jwtStep db key now cred = JwtOutcome.fallthrough := by
  unfold jwtStep
  cases h with
  | inl h0 => rw [h0]
  | inr h0 => rw [h0]; rfl

/-- After the excluded-path, method and scheme guards, dispatch on a bearer
credential is the JWT branch followed by the password fallback. -/
theorem dispatch_bearer (password : Option Token) (excluded : List String)
    (db : UserDb) (key : String) (now : Int) (path method scheme : String)
    (cred : Token)
    (hp : path ∉ excluded) (hm : method ≠ "OPTIONS") (hs : lowerStr scheme = "bearer") :
    dispatch password excluded db key now
      { path := path, method := method,
        authorization := some (AuthHeaderVal.schemeCred scheme cred) }
      = (match jwtStep db key now cred with
         | JwtOutcome.okUser u => DispatchResult.proceed (some u)
         | JwtOutcome.denied d => DispatchResult.reject401 d
         | JwtOutcome.fallthrough =>
           if tokenTruthy password && password = some cred then
             DispatchResult.proceed none
           else DispatchResult.reject401 "Invalid credentials") := by
  unfold dispatch
  rw [if_neg hp, if_neg hm]
  show (if lowerStr scheme ≠ "bearer" then _ else _) = _
  rw [if_neg (by simp [hs])]

/-! ## Claim theorems -/

/-- C9: token expiry is configurable via environment with a 168-hour
default: when the JWT_EXPIRATION_HOURS environment variable is unset the
configured value is 168 hours, and create_access_token sets the exp claim of
the issued token to the issuance time (its iat claim) plus that many
hours. -/
theorem C9_expiry_configurable_default_168 :
    JWT_EXPIRATION_HOURS none = some 168 ∧
    ∀ (key : String) (hours now : Int) (uid uname : String),
      create_access_token key hours now uid uname =
        Token.signed
          { sub := uid, username := uname, exp := now + hours * 3600, iat := now }
          key := by
  constructor
  · decide
  · intro key hours now uid uname
    rfl

/-- C7: token issuance/verification round-trip: a token issued by
create_access_token for a user id and username verifies, within its expiry
window, to a payload whose sub is the user id, whose username is the
username, and which carries iat and exp claims; and every token string on
which jose decoding raises makes verify_token and get_user_id_from_token
return none rather than raise. -/
theorem C7_token_roundtrip (key : String) (hours now now2 : Int)
    (uid uname : String) (hwin : now2 < now + hours * 3600) :
    (∃ p : JwtPayload,
      verify_token key now2 (create_access_token key hours now uid uname) = some p ∧
      p.sub = uid ∧ p.username = uname ∧ p.iat = now ∧ p.exp = now + hours * 3600) ∧
    (∀ (tok : Token) (e : JwtErr), joseDecode tok key now2 = Except.error e →
      verify_token key now2 tok = none ∧
      get_user_id_from_token key now2 tok = none) := by
  constructor
  · refine ⟨{ sub := uid, username := uname, exp := now + hours * 3600, iat := now },
      ?_, rfl, rfl, rfl, rfl⟩
    have he : ¬ ((now + hours * 3600) ≤ now2) := by omega
    simp [create_access_token, joseEncode, verify_token, joseDecode, he]
  · intro tok e hdec
    have hv : verify_token key now2 tok = none := by
      unfold verify_token
      rw [hdec]
    refine ⟨hv, ?_⟩
    unfold get_user_id_from_token
    rw [hv]
    rfl

/-- Witness for C7 at a concrete key, expiry, time and user. -/
theorem C7_witness :
    (∃ p : JwtPayload,
      verify_token "k" 10 (create_access_token "k" 168 0 "user:1" "alice") = some p ∧
      p.sub = "user:1" ∧ p.username = "alice" ∧ p.iat = 0 ∧ p.exp = 0 + 168 * 3600) ∧
    (∀ (tok : Token) (e : JwtErr), joseDecode tok "k" 10 = Except.error e →
      verify_token "k" 10 tok = none ∧
      get_user_id_from_token "k" 10 tok = none) :=
  C7_token_roundtrip "k" 168 0 10 "user:1" "alice" (by decide)

/-- C6: password hash/verify round-trip: for a password of at least 6
characters, hash_password succeeds with the bcrypt hash of the password, and
any user record storing that hash verifies the original password and rejects
every different password. The bcrypt digest is idealized as collision-free
in the library model. -/
theorem C6_hash_verify_roundtrip (salt password other : String)
    (hsalt : salt.length = 22) (hlen : 6 ≤ password.length) (hne : other ≠ password) :
    hash_password salt password = Except.ok (bcryptHashpw password salt) ∧
    ∀ u : User, u.password_hash = bcryptHashpw password salt →
      u.verify_password password = true ∧ u.verify_password other = false := by
  have hne' : password ≠ "" := by
    intro h
    rw [h] at hlen
    simp at hlen
  have hie : password.isEmpty = false := by
    rw [Bool.eq_false_iff]
    intro hh
    exact hne' ((String.isEmpty_iff password).mp hh)
  constructor
  · unfold hash_password
    rw [if_neg]
    simp [hie]
    omega
  · intro u hu
    unfold User.verify_password
    rw [hu]
    exact ⟨bcryptCheckpw_roundtrip password salt hsalt,
           bcryptCheckpw_other password other salt hsalt hne⟩

/-- Witness for C6 at a concrete salt and password pair. -/
theorem C6_witness :
    hash_password "ABCDEFGHIJKLMNOPQRSTUV" "secret"
      = Except.ok (bcryptHashpw "secret" "ABCDEFGHIJKLMNOPQRSTUV") ∧
    ∀ u : User, u.password_hash = bcryptHashpw "secret" "ABCDEFGHIJKLMNOPQRSTUV" →
      u.verify_password "secret" = true ∧ u.verify_password "wrongpw" = false :=
  C6_hash_verify_roundtrip "ABCDEFGHIJKLMNOPQRSTUV" "secret" "wrongpw"
    (by decide) (by decide) (by decide)

/-- C4, counterexample: two get_notebooks requests that differ only in the
request-supplied order_by parameter submit different query texts to the
driver, because the handler interpolates order_by into the f-string. -/
theorem C4_counterexample :
    (get_notebooks_query none "updated desc").1 ≠ (get_notebooks_query none "name asc").1 := by
  decide

/-- C4, amended: the queries parameterized by path ids (single-notebook
read, reference existence check, RELATE, reference delete) have query text
independent of the request-supplied ids, which reach the driver only through
the parameter bindings; the get_notebooks handler is the exception: its
query text is a fixed prefix with the request-supplied order_by spliced onto
the end. -/
theorem C4_amended (id1 id2 n1 n2 s1 s2 : String) (user_id : Option String) :
    (get_notebook_query id1).1 = (get_notebook_query id2).1 ∧
    (get_notebook_query id1).2 = [("notebook_id", id1)] ∧
    (reference_exists_query n1 s1).1 = (reference_exists_query n2 s2).1 ∧
    (reference_exists_query n1 s1).2 = [("notebook_id", n1), ("source_id", s1)] ∧
    (relate_query n1 s1).1 = (relate_query n2 s2).1 ∧
    (delete_reference_query n1 s1).1 = (delete_reference_query n2 s2).1 ∧
    ∃ base : String, ∀ order_by : String,
      (get_notebooks_query user_id order_by).1 = base ++ order_by := by
  refine ⟨rfl, rfl, rfl, rfl, rfl, rfl, ?_⟩
  by_cases h : pyTruthy user_id = true
  · exact ⟨"SELECT *, count(<-reference.in) as source_count, count(<-artifact.in) as note_count FROM notebook WHERE user = $user_id ORDER BY ",
      fun order_by => by simp [get_notebooks_query, h]⟩
  · rw [Bool.not_eq_true] at h
    exact ⟨"SELECT *, count(<-reference.in) as source_count, count(<-artifact.in) as note_count FROM notebook ORDER BY ",
      fun order_by => by simp [get_notebooks_query, h]⟩

/-- C3: the existence check of add_source_to_notebook filters the reference
table with out = source and in = notebook, while the RELATE statement it
guards creates the edge with in = source and out = notebook (the orientation
used by the delete handler and the edge-count queries of this same router),
so the check never sees the edge that the first call created: after one
link, the check still returns nothing, and a second identical link stores a
second edge, violating the idempotency the check is commented to provide. -/
theorem C3_duplicate_edge_on_second_link :
    (add_source_to_notebook
      { notebooks := [{ id := "notebook:1", name := "nb", description := "" }],
        sources := [{ id := "source:1" }],
        references := [] } none "notebook:1" "source:1").2.references
      = [{ inRec := "source:1", outRec := "notebook:1" }] ∧
    referenceExistsCheck
      { notebooks := [{ id := "notebook:1", name := "nb", description := "" }],
        sources := [{ id := "source:1" }],
        references := [{ inRec := "source:1", outRec := "notebook:1" }] }
      "notebook:1" "source:1" = [] ∧
    ((add_source_to_notebook
      { notebooks := [{ id := "notebook:1", name := "nb", description := "" }],
        sources := [{ id := "source:1" }],
        references := [{ inRec := "source:1", outRec := "notebook:1" }] }
      none "notebook:1" "source:1").2.references).length = 2 := by
  decide

/-- C2, counterexample: a notebook whose owning-user field is unset differs
from the requesting user, yet delete_notebook performed with that user
context deletes it instead of returning 403. -/
theorem C2_counterexample :
    ({ id := "notebook:1", name := "nb", description := "", user := none } : Notebook).user
      ≠ some "user:alice" ∧
    delete_notebook
      { notebooks := [{ id := "notebook:1", name := "nb", description := "", user := none }],
        sources := [], references := [] }
      (some "user:alice") "notebook:1"
      = (Except.ok "Notebook deleted successfully",
         { notebooks := [], sources := [], references := [] }) :=
  ⟨by decide, rfl⟩

/-- C2, amended: for every notebook read, update, delete and source
link/unlink operation performed with a requesting user context, if the
owning-user field of the notebook is set, nonempty and differs from the
requesting user id, the operation returns 403 and the store is unchanged;
with no user context the ownership check is skipped and no operation
returns 403. -/
theorem C2_ownership_check (st : Store) (nbId srcId o u : String) (nb : Notebook)
    (upd : NotebookUpdate) (hnb : notebookGet st nbId = some nb) :
    (nb.user = some o → o ≠ "" → u ≠ "" → o ≠ u →
      get_notebook st (some u) nbId = Except.error 403 ∧
      update_notebook st (some u) nbId upd = (Except.error 403, st) ∧
      delete_notebook st (some u) nbId = (Except.error 403, st) ∧
      add_source_to_notebook st (some u) nbId srcId = (Except.error 403, st) ∧
      remove_source_from_notebook st (some u) nbId srcId = (Except.error 403, st)) ∧
    (get_notebook st none nbId = Except.ok nb ∧
      (update_notebook st none nbId upd).1 ≠ Except.error 403 ∧
      (delete_notebook st none nbId).1 ≠ Except.error 403 ∧
      (add_source_to_notebook st none nbId srcId).1 ≠ Except.error 403 ∧
      (remove_source_from_notebook st none nbId srcId).1 ≠ Except.error 403) := by
  constructor
  · intro ho hoe hue hou
    have hd : ownerDenied (some u) nb.user = true := by
      rw [ho]
      unfold ownerDenied pyTruthy
      have h1 : u.isEmpty = false := by
        rw [Bool.eq_false_iff]
        intro hh
        exact hue ((String.isEmpty_iff u).mp hh)
      have h2 : o.isEmpty = false := by
        rw [Bool.eq_false_iff]
        intro hh
        exact hoe ((String.isEmpty_iff o).mp hh)
      simp [h1, h2]
      intro hh
      exact hou hh
    refine ⟨?_, ?_, ?_, ?_, ?_⟩
    · simp [get_notebook, hnb, hd]
    · simp [update_notebook, hnb, hd]
    · simp [delete_notebook, hnb, hd]
    · simp [add_source_to_notebook, hnb, hd]
    · simp [remove_source_from_notebook, hnb, hd]
  · have hd : ownerDenied none nb.user = false := by
      unfold ownerDenied pyTruthy
      simp
    refine ⟨?_, ?_, ?_, ?_, ?_⟩
    · simp [get_notebook, hnb, hd]
    · simp [update_notebook, hnb, hd]
    · simp [delete_notebook, hnb, hd]
    · cases hg : sourceGet st srcId with
      | none => simp [add_source_to_notebook, hnb, hd, hg]
      | some s =>
        have hds : ownerDenied none s.user = false := by
          unfold ownerDenied pyTruthy
          simp
        by_cases hex : (referenceExistsCheck st nbId srcId).isEmpty = true
        · simp [add_source_to_notebook, hnb, hd, hg, hds, hex]
        · rw [Bool.not_eq_true] at hex
          simp [add_source_to_notebook, hnb, hd, hg, hds, hex]
    · simp [remove_source_from_notebook, hnb, hd]

/-- Sample notebook owned by user bob, used by the C2 witness. -/
def nbBob : Notebook :=
  { id := "notebook:1", name := "nb", description := "", user := some "user:bob" }

/-- Sample store holding only nbBob, used by the C2 witness. -/
def stBob : Store :=
  { notebooks := [nbBob], sources := [], references := [] }

/-- Witness for C2 at a concrete store with an owned notebook and a foreign
requesting user. -/
theorem C2_witness :
    (nbBob.user = some "user:bob" → "user:bob" ≠ "" → "user:alice" ≠ "" →
      "user:bob" ≠ "user:alice" →
      get_notebook stBob (some "user:alice") "notebook:1" = Except.error 403 ∧
      update_notebook stBob (some "user:alice") "notebook:1" {} = (Except.error 403, stBob) ∧
      delete_notebook stBob (some "user:alice") "notebook:1" = (Except.error 403, stBob) ∧
      add_source_to_notebook stBob (some "user:alice") "notebook:1" "source:1"
        = (Except.error 403, stBob) ∧
      remove_source_from_notebook stBob (some "user:alice") "notebook:1" "source:1"
        = (Except.error 403, stBob)) ∧
    (get_notebook stBob none "notebook:1" = Except.ok nbBob ∧
      (update_notebook stBob none "notebook:1" {}).1 ≠ Except.error 403 ∧
      (delete_notebook stBob none "notebook:1").1 ≠ Except.error 403 ∧
      (add_source_to_notebook stBob none "notebook:1" "source:1").1 ≠ Except.error 403 ∧
      (remove_source_from_notebook stBob none "notebook:1" "source:1").1 ≠ Except.error 403) :=
  C2_ownership_check stBob "notebook:1" "source:1" "user:bob" "user:alice" nbBob {}
    (by decide)

/-- C5, counterexample: a call to create_user where no same-named user
exists, no same email exists and the password has at least 6 characters
nevertheless raises InvalidInputError and stores nothing, because the
username fails the field validation run at model construction. -/
theorem C5_counterexample :
    (get_by_username [] "ab").isSome = false ∧
    (get_by_email [] "ab@example.com").isSome = false ∧
    ¬ ("secret1".length < 6) ∧
    create_user [] "ABCDEFGHIJKLMNOPQRSTUV" "user:1" "ab" "ab@example.com" "secret1"
      none false = Except.error "Username must be at least 3 characters" :=
  ⟨rfl, rfl, by decide, rfl⟩

/-- C5, amended: create_user raises and stores no user when a user with the
same (normalized) username exists, when a user with the same (normalized)
email exists, or when the password is shorter than 6 characters; when none
of these hold and the username and email additionally pass the field
validation the model runs at construction (the custom username validator,
the pydantic EmailStr format validation of the email, and the custom email
validator), it stores a user whose password_hash is the bcrypt hash of the
password and never the plaintext password itself. -/
theorem C5_create_user (db : UserDb) (salt newId username email password : String)
    (full_name : Option String) (is_admin : Bool) :
    ((get_by_username db username).isSome = true ∨
     (get_by_email db email).isSome = true ∨ password.length < 6 →
      ∃ msg, create_user db salt newId username email password full_name is_admin
        = Except.error msg) ∧
    ((get_by_username db username).isSome = false →
     (get_by_email db email).isSome = false → 6 ≤ password.length →
      ∀ uname mail,
        username_must_be_valid (lowerStr username) = Except.ok uname →
        emailStrValid (lowerStr email) = true →
        email_must_be_valid (lowerStr email) = Except.ok mail →
        ∃ u : User,
          create_user db salt newId username email password full_name is_admin
            = Except.ok (u, db ++ [u]) ∧
          u.username = uname ∧ u.email = mail ∧
          u.password_hash = bcryptHashpw password salt ∧
          u.password_hash ≠ password) := by
  constructor
  · intro hcase
    unfold create_user
    by_cases h1 : (get_by_username db username).isSome = true
    · exact ⟨"Username already exists", by simp [h1]⟩
    · rw [Bool.not_eq_true] at h1
      by_cases h2 : (get_by_email db email).isSome = true
      · exact ⟨"Email already exists", by simp [h1, h2]⟩
      · rw [Bool.not_eq_true] at h2
        have hp : password.length < 6 := by
          rcases hcase with hc | hc | hc
          · rw [h1] at hc
            cases hc
          · rw [h2] at hc
            cases hc
          · exact hc
        have hh : hash_password salt password
            = Except.error "Password must be at least 6 characters" := by
          unfold hash_password
          rw [if_pos]
          simp
          omega
        refine ⟨"Password must be at least 6 characters", ?_⟩
        simp [h1, h2]
        rw [hh]
        rfl
  · intro h1 h2 hlen uname mail hu hev hm
    have hne : password ≠ "" := by
      intro h
      rw [h] at hlen
      simp at hlen
    have hie : password.isEmpty = false := by
      rw [Bool.eq_false_iff]
      intro hh
      exact hne ((String.isEmpty_iff password).mp hh)
    have hh : hash_password salt password = Except.ok (bcryptHashpw password salt) := by
      unfold hash_password
      rw [if_neg]
      simp [hie]
      omega
    refine ⟨{ id := newId, username := uname, email := mail,
              password_hash := bcryptHashpw password salt,
              full_name := full_name, is_active := true, is_admin := is_admin }, ?_,
            rfl, rfl, rfl, bcryptHashpw_ne_password password salt⟩
    unfold create_user
    simp [h1, h2, hh, User.construct, hu, hev, hm]
    rfl

/-- Witness for C5 at a concrete empty store and valid registration. -/
theorem C5_witness :
    ((get_by_username [] "Alice").isSome = true ∨
     (get_by_email [] "A@ex.com").isSome = true ∨ "secret1".length < 6 →
      ∃ msg, create_user [] "ABCDEFGHIJKLMNOPQRSTUV" "user:1" "Alice" "A@ex.com"
        "secret1" none false = Except.error msg) ∧
    ((get_by_username [] "Alice").isSome = false →
     (get_by_email [] "A@ex.com").isSome = false → 6 ≤ "secret1".length →
      ∀ uname mail,
        username_must_be_valid (lowerStr "Alice") = Except.ok uname →
        emailStrValid (lowerStr "A@ex.com") = true →
        email_must_be_valid (lowerStr "A@ex.com") = Except.ok mail →
        ∃ u : User,
          create_user [] "ABCDEFGHIJKLMNOPQRSTUV" "user:1" "Alice" "A@ex.com"
            "secret1" none false = Except.ok (u, [] ++ [u]) ∧
          u.username = uname ∧ u.email = mail ∧
          u.password_hash = bcryptHashpw "secret1" "ABCDEFGHIJKLMNOPQRSTUV" ∧
          u.password_hash ≠ "secret1") :=
  C5_create_user [] "ABCDEFGHIJKLMNOPQRSTUV" "user:1" "Alice" "A@ex.com" "secret1"
    none false

/-- C8: every User accepted by the model field validators carries a
lowercase-normalized username and email (lowercasing them again changes
nothing), and lookups are case-insensitive: in a store with unique usernames
and emails, get_by_username and get_by_email lowercase their argument before
querying, so any string whose lowercase form is the stored username (or
email) of a member finds exactly that member. -/
theorem C8_lowercase_normalization_and_lookup
    (db : UserDb) (u : User) (s e : String)
    (hmem : u ∈ db) (hs : lowerStr s = u.username) (he : lowerStr e = u.email)
    (huuniq : ∀ v ∈ db, ∀ w ∈ db, v.username = w.username → v = w)
    (heuniq : ∀ v ∈ db, ∀ w ∈ db, v.email = w.email → v = w)
    (id username email pwh : String) (fn : Option String) (act adm : Bool) (w : User)
    (hc : User.construct id username email pwh fn act adm = Except.ok w) :
    lowerStr w.username = w.username ∧ lowerStr w.email = w.email ∧
    get_by_username db s = some u ∧ get_by_email db e = some u := by
  have hw : w.username = lowerStr (stripStr username) ∧
      w.email = lowerStr (stripStr email) := by
    unfold User.construct at hc
    cases hu : username_must_be_valid username with
    | error msg => rw [hu] at hc; cases hc
    | ok a =>
      rw [hu] at hc
      by_cases hev : emailStrValid email = true
      · rw [hev] at hc
        cases hm : email_must_be_valid email with
        | error msg => rw [hm] at hc; cases hc
        | ok b =>
          rw [hm] at hc
          have hwab : w = User.mk id a b pwh fn act adm none := by
            cases hc
            rfl
          rw [hwab]
          exact ⟨username_valid_ok username a hu, email_valid_ok email b hm⟩
      · rw [Bool.not_eq_true] at hev
        rw [hev] at hc
        cases hc
  refine ⟨?_, ?_, ?_, ?_⟩
  · rw [hw.1]
    exact lowerStr_idem (stripStr username)
  · rw [hw.2]
    exact lowerStr_idem (stripStr email)
  · exact get_by_username_finds db u s hmem hs huuniq
  · exact get_by_email_finds db u e hmem he heuniq

/-- Sample normalized user record for the C8 witness. -/
def aliceUser : User :=
  { id := "user:1", username := "alice", email := "alice@example.com",
    password_hash := "h" }

/-- Witness for C8 at a concrete one-user store and uppercase lookups. -/
theorem C8_witness :
    lowerStr aliceUser.username = aliceUser.username ∧
    lowerStr aliceUser.email = aliceUser.email ∧
    get_by_username [aliceUser] "ALICE" = some aliceUser ∧
    get_by_email [aliceUser] "Alice@Example.COM" = some aliceUser :=
  C8_lowercase_normalization_and_lookup [aliceUser] aliceUser "ALICE"
    "Alice@Example.COM" (by decide) (by decide) (by decide) (by decide) (by decide)
    "user:1" "alice" "alice@example.com" "h" none true false aliceUser rfl

/-- Token whose payload names the inactive sample user, signed with the
sample key; also configured as the shared-secret password in the C1
counterexample. -/
def bobToken : Token :=
  Token.signed { sub := "user:bob", username := "bob", exp := 100, iat := 0 } "k"

/-- Inactive sample user for the C1 counterexample. -/
def bobUser : User :=
  { id := "user:bob", username := "bob", email := "bob@example.com",
    password_hash := "h", is_active := false }

/-- C1, counterexample: a bearer credential that decodes as a valid JWT
whose sub names an inactive user, and that is at the same time exactly equal
to the configured shared-secret password, is answered 401; the claim as
stated says a credential equal to the password proceeds whenever JWT
verification does not succeed. -/
theorem C1_counterexample :
    tokenTruthy (some bobToken) = true ∧
    bobUser.is_active = false ∧
    dispatch (some bobToken) [] [bobUser] "k" 0
      { path := "/api/notebooks", method := "GET",
        authorization := some (AuthHeaderVal.schemeCred "Bearer" bobToken) }
      = DispatchResult.reject401 "User account is inactive" := by
  refine ⟨rfl, rfl, ?_⟩
  decide

/-- C1, amended: for every request to a non-excluded path with a bearer
credential, dispatch tries JWT decoding first; if the decoded sub is truthy
and resolves to an existing active user the request proceeds with that user
in request state; if the decoded sub is truthy but does not resolve to an
existing active user the response is 401 regardless of the password; only
when decoding fails or yields no truthy user id is the credential compared
with the configured shared-secret password, proceeding with no user context
on an exact match and answering 401 otherwise. -/
theorem C1_password_jwt_gate (password : Option Token) (excluded : List String)
    (db : UserDb) (key : String) (now : Int) (path method scheme : String)
    (cred : Token)
    (hp : path ∉ excluded) (hm : method ≠ "OPTIONS") (hs : lowerStr scheme = "bearer") :
    (∀ uid u, get_user_id_from_token key now cred = some uid → uid ≠ "" →
      userGet db uid = some u → u.is_active = true →
      dispatch password excluded db key now
        { path := path, method := method,
          authorization := some (AuthHeaderVal.schemeCred scheme cred) }
        = DispatchResult.proceed (some u)) ∧
    (∀ uid, get_user_id_from_token key now cred = some uid → uid ≠ "" →
      (∀ u, userGet db uid = some u → u.is_active = false) →
      dispatch password excluded db key now
        { path := path, method := method,
          authorization := some (AuthHeaderVal.schemeCred scheme cred) }
        = DispatchResult.reject401 "User account is inactive") ∧
    (get_user_id_from_token key now cred = none ∨
     get_user_id_from_token key now cred = some "" →
      (tokenTruthy password = true → password = some cred →
        dispatch password excluded db key now
          { path := path, method := method,
            authorization := some (AuthHeaderVal.schemeCred scheme cred) }
          = DispatchResult.proceed none) ∧
      ((tokenTruthy password = false ∨ password ≠ some cred) →
        dispatch password excluded db key now
          { path := path, method := method,
            authorization := some (AuthHeaderVal.schemeCred scheme cred) }
          = DispatchResult.reject401 "Invalid credentials")) := by
  have hd := dispatch_bearer password excluded db key now path method scheme cred hp hm hs
  refine ⟨?_, ?_, ?_⟩
  · intro uid u h1 h2 h3 h4
    rw [hd, jwtStep_okUser db key now cred uid u h1 h2 h3 h4]
  · intro uid h1 h2 h3
    rw [hd, jwtStep_denied db key now cred uid h1 h2 h3]
  · intro hj
    constructor
    · intro ht hpw
      rw [hd, jwtStep_fallthrough db key now cred hj]
      have hcond : (tokenTruthy password && decide (password = some cred)) = true := by
        rw [ht]
        simp [hpw]
      simp [hcond]
    · intro hcase
      rw [hd, jwtStep_fallthrough db key now cred hj]
      cases hcase with
      | inl ht => simp [ht]
      | inr hpw =>
        have : (tokenTruthy password && password = some cred) = false := by
          simp [hpw]
        simp [this]

/-- Active sample user for the C1 and C10 witnesses. -/
def carolUser : User :=
  { id := "user:carol", username := "carol", email := "carol@example.com",
    password_hash := "h", is_active := true }

/-- Token for the active sample user, signed with the sample key. -/
def carolToken : Token :=
  Token.signed { sub := "user:carol", username := "carol", exp := 100, iat := 0 } "k"

/-- Witness for C1 at a concrete request carrying the active sample user's
token. -/
theorem C1_witness :
    dispatch none [] [carolUser] "k" 0
      { path := "/api/notebooks", method := "GET",
        authorization := some (AuthHeaderVal.schemeCred "Bearer" carolToken) }
      = DispatchResult.proceed (some carolUser) :=
  (C1_password_jwt_gate none [] [carolUser] "k" 0 "/api/notebooks" "GET" "Bearer"
    carolToken (by decide) (by decide) (by decide)).1
    "user:carol" carolUser (by decide) (by decide) (by decide) rfl

/-- C10: with OPEN_NOTEBOOK_PASSWORD unset, a request with no Authorization
header to a non-excluded path proceeds with no user context, while any
request whose bearer credential does not resolve to an existing active user
via JWT is answered 401 (the password fallback can never match an unset
password), so presenting an invalid credential is strictly worse than
presenting none. -/
theorem C10_no_password_mode (excluded : List String) (db : UserDb) (key : String)
    (now : Int) (path method : String)
    (hp : path ∉ excluded) (hm : method ≠ "OPTIONS") :
    dispatch none excluded db key now
      { path := path, method := method, authorization := none }
      = DispatchResult.proceed none ∧
    (∀ scheme cred, lowerStr scheme = "bearer" →
      (∀ uid u, get_user_id_from_token key now cred = some uid → uid ≠ "" →
        userGet db uid = some u → u.is_active = false) →
      ∃ d, dispatch none excluded db key now
        { path := path, method := method,
          authorization := some (AuthHeaderVal.schemeCred scheme cred) }
        = DispatchResult.reject401 d) := by
  constructor
  · unfold dispatch
    rw [if_neg hp, if_neg hm]
    rfl
  · intro scheme cred hs hno
    have hd := dispatch_bearer none excluded db key now path method scheme cred hp hm hs
    by_cases hj : get_user_id_from_token key now cred = none ∨
        get_user_id_from_token key now cred = some ""
    · refine ⟨"Invalid credentials", ?_⟩
      rw [hd, jwtStep_fallthrough db key now cred hj]
      rfl
    · push_neg at hj
      cases hg : get_user_id_from_token key now cred with
      | none => exact absurd hg hj.1
      | some uid =>
        have huid : uid ≠ "" := by
          intro h
          rw [h] at hg
          exact hj.2 hg
        refine ⟨"User account is inactive", ?_⟩
        rw [hd, jwtStep_denied db key now cred uid hg huid (fun u hu => hno uid u hg huid hu)]

/-- Witness for C10 at a concrete headerless request and a concrete invalid
bearer credential. -/
theorem C10_witness :
    dispatch none [] [] "k" 0
      { path := "/api/notebooks", method := "GET", authorization := none }
      = DispatchResult.proceed none ∧
    (∀ scheme cred, lowerStr scheme = "bearer" →
      (∀ uid u, get_user_id_from_token "k" 0 cred = some uid → uid ≠ "" →
        userGet [] uid = some u → u.is_active = false) →
      ∃ d, dispatch none [] [] "k" 0
        { path := "/api/notebooks", method := "GET",
          authorization := some (AuthHeaderVal.schemeCred scheme cred) }
        = DispatchResult.reject401 d) :=
  C10_no_password_mode [] [] "k" 0 "/api/notebooks" "GET" (by decide) (by decide)

end OpenNotebook
